import Mathlib

set_option maxRecDepth 8000

/-!
Shallow embedding of the permission engine of `src/src/yunohost/permission.py`.

Python dictionaries are modelled as association lists or total lookup
functions, Python sets built from lists keep the first occurrence of each
element, and the external collaborators (directory store, group directory,
path normalizer) are passed in as explicit parameters.  Errors raised by the
code are modelled with `Except`/an error type; the Python `TypeError` raised
when subscripting `None` is modelled explicitly.
-/

/-! ### Python string and list primitives used by the source -/

/-- `isPrefixList p l` is true when `p` is an initial segment of `l`. -/
def isPrefixList : List Char → List Char → Bool
  | [], _ => true
  | _ :: _, [] => false
  | a :: as, b :: bs => a == b && isPrefixList as bs

/-- Substring occurrence on character lists (Python `needle in hay`). -/
def subList : List Char → List Char → Bool
  | needle, [] => isPrefixList needle []
  | needle, c :: t => isPrefixList needle (c :: t) || subList needle t

/-- Python `needle in hay` for two strings: substring containment. -/
def pyInStr (needle hay : String) : Bool :=
  subList needle.data hay.data

/-- Python `p.startswith(q)`. -/
def pyStartsWith (s p : String) : Bool :=
  isPrefixList p.data s.data

/-- Whether a character occurs in a list of characters. -/
def containsChar (c : Char) : List Char → Bool
  | [] => false
  | a :: as => a == c || containsChar c as

/-- Characters of a string up to (excluding) the first dot:
Python `name.split('.')[0]`. -/
def takeBeforeDot : List Char → List Char
  | [] => []
  | a :: as => if a == '.' then [] else a :: takeBeforeDot as

/-- Python `name.split('.')[0]`: the app component of a permission name. -/
def appOf (name : String) : String :=
  ⟨takeBeforeDot name.data⟩

/-- Drop leading characters belonging to `cs` (the heart of Python `lstrip`). -/
def dropWhileMem (cs : List Char) : List Char → List Char
  | [] => []
  | a :: as => if containsChar a cs then dropWhileMem cs as else a :: as

/-- Python `s.lstrip(chars)`: remove all leading characters that belong to the
character set `chars` (NOT removal of the literal string `chars`). -/
def pyLstrip (chars s : String) : String :=
  ⟨dropWhileMem chars.data s.data⟩

/-- Python `s.rstrip(chars)`. -/
def pyRstrip (chars s : String) : String :=
  ⟨(dropWhileMem chars.data s.data.reverse).reverse⟩

/-- Python `x in l` for a list of strings. -/
def pyInList (x : String) (l : List String) : Bool :=
  l.any (fun y => x == y)

/-- Python `set(...)` built from a list of strings, keeping first occurrences. -/
def dedupF : List String → List String
  | [] => []
  | x :: xs => x :: (dedupF xs).filter (fun y => !(y == x))

/-- Python set equality of the sets denoted by two lists. -/
def setEqb (a b : List String) : Bool :=
  a.all (fun x => pyInList x b) && b.all (fun x => pyInList x a)

/-- Union (with duplicates, as the Python comprehension produces before `set`)
of the members of the listed groups. -/
def unionMembers (members : String → List String) : List String → List String
  | [] => []
  | g :: gs => members g ++ unionMembers members gs

/-- Python dict lookup `d.get(k, None)` over an association list. -/
def dictGet {β : Type} (k : String) : List (String × β) → Option β
  | [] => none
  | (k2, v) :: rest => if k == k2 then some v else dictGet k rest

/-! ### Data model -/

/-- A Python argument that may be a bare string or a list of strings
(`add`, `remove` of `user_permission_update`; `allowed` of
`permission_create` / `_update_ldap_group_permission`). -/
inductive StrOrList where
  | str (s : String)
  | list (l : List String)
deriving DecidableEq

/-- Errors surfaced by the code: the `YunohostError` keys raised in
`permission.py`, plus the Python `TypeError` that subscripting `None`
raises, plus a model-only marker for exhausting the supplied random
samples (unreachable for the unbounded sampling of the code). -/
inductive PyErr where
  | permission_require_account (permission : String)
  | permission_protected (permission : String)
  | permission_not_found (permission : String)
  | group_unknown (group : String)
  | permission_already_exist (permission : String)
  | permission_update_failed (permission : String)
  | typeError
  | samplesExhausted
deriving DecidableEq

/-- The full record for one permission as parsed by
`user_permission_list(full=True, full_path=False)` (lines 75-97). -/
structure PermRecord where
  allowed : List String
  corresponding_users : List String
  label : Option String
  show_tile : Bool
  isProtected : Bool
  auth_header : Bool
  url : Option String
  additional_urls : List String
deriving DecidableEq

/-- Line 39 of the source, verbatim (note the `stfp` spelling). -/
def SYSTEM_PERMS : List String := ["mail", "xmpp", "stfp"]

/-! ### URL Normalizer: `_complete_url` (lines 65-73) -/

/-- `_complete_url(url, name)` with the `app_settings` dict (domain+path per
app id) passed as a total lookup function. -/
def _complete_url (app_settings : String → String) (url : Option String) (name : String) :
    Option String :=
  match url with
  | none => none
  | some u =>
    if pyStartsWith u "/" then
      some (app_settings (appOf name) ++ pyRstrip "/" u)
    else if pyStartsWith u "re:/" then
      some ("re:" ++ app_settings (appOf name) ++ pyLstrip "re:/" u)
    else
      some u

/-- App-settings table used by the concrete URL-normalization runs. -/
def demoSettings : String → String :=
  fun a => if a == "myapp" then "example.org/myapp" else ""

/-! ### `user_permission_update` (lines 104-189) -/

/-- Python truthiness of the optional `add` / `remove` argument
(`None`, `""` and `[]` are falsy). -/
def pyTruthyOpt : Option StrOrList → Bool
  | none => false
  | some (.str s) => !(s == "")
  | some (.list l) => !l.isEmpty

/-- Python `"visitors" in add`: substring containment when the argument is a
bare string, element membership when it is a list. -/
def visitorsInOpt : Option StrOrList → Bool
  | none => false
  | some (.str s) => pyInStr "visitors" s
  | some (.list l) => pyInList "visitors" l

/-- `[add] if not isinstance(add, list) else add` (lines 151 and 162). -/
def toListOpt : Option StrOrList → List String
  | none => []
  | some (.str s) => [s]
  | some (.list l) => l

/-- What `user_permission_update` hands to `_update_ldap_group_permission`
at lines 183-185 (the commit of the computed allowed-group list plus the
pass-through metadata arguments). -/
structure UpdCommit where
  permission : String
  allowed : List String
  label : Option String
  show_tile : Option Bool
  isProtected : Option Bool
deriving DecidableEq

/-- The add pass of lines 150-159: walk `groups_to_add`, failing on an
unknown group, warning (no effect) on an already-allowed group, appending
otherwise. -/
def addLoop (all_groups current : List String) :
    List String → List String → Except PyErr (List String)
  | new_allowed, [] => .ok new_allowed
  | new_allowed, g :: gs =>
    if !(pyInList g all_groups) then .error (.group_unknown g)
    else if pyInList g current then addLoop all_groups current new_allowed gs
    else addLoop all_groups current (new_allowed ++ [g]) gs

/-- Body of `user_permission_update` (lines 122-185), with the bare-string /
list coercions of the `add` and `remove` arguments already resolved into
(truthiness, visitors-containment, coerced list) triples.  `cat` is the
catalog snapshot read at line 126 and `all_groups` the group names from
`user_group_list()` (line 148).  Mirrors the source order: the
system-permission guard (129-130), the protected guard (133-135, which in
Python subscripts `existing_permission["protected"]` and therefore raises
`TypeError` when the permission does not exist), the not-found check
(139-140), the add pass, the remove pass, and the commit arguments of
lines 183-185.  The advisory of lines 176-178 is a log-only warning with no
effect on the result and is not modelled. -/
def upd_core (cat : List (String × PermRecord)) (all_groups : List String)
    (permission0 : String)
    (addT addVis : Bool) (addList : List String)
    (remT remVis : Bool) (remList : List String)
    (label : Option String) (show_tile isProtected : Option Bool)
    (force : Bool) : Except PyErr UpdCommit :=
  let permission := if containsChar '.' permission0.data then permission0
                    else permission0 ++ ".main"
  if addT && addVis && pyInList (appOf permission) SYSTEM_PERMS then
    .error (.permission_require_account permission)
  else
    match dictGet permission cat with
    | none =>
      if (addT && addVis) || (remT && remVis) then .error .typeError
      else .error (.permission_not_found permission)
    | some ex =>
      if ((addT && addVis && ex.isProtected) || (remT && remVis && ex.isProtected))
          && !force then
        .error (.permission_protected permission)
      else
        let current := ex.allowed
        match (if addT then addLoop all_groups current current addList else .ok current) with
        | .error e => .error e
        | .ok afterAdd =>
          let afterRemove :=
            if remT then afterAdd.filter (fun g => !(pyInList g remList)) else afterAdd
          .ok { permission := permission, allowed := afterRemove,
                label := label, show_tile := show_tile, isProtected := isProtected }

/-- `user_permission_update(permission, add, remove, label, show_tile,
protected, force)` against a catalog snapshot and group list. -/
def user_permission_update (cat : List (String × PermRecord)) (all_groups : List String)
    (permission : String) (add remove : Option StrOrList)
    (label : Option String) (show_tile isProtected : Option Bool)
    (force : Bool) : Except PyErr UpdCommit :=
  upd_core cat all_groups permission
    (pyTruthyOpt add) (visitorsInOpt add) (toListOpt add)
    (pyTruthyOpt remove) (visitorsInOpt remove) (toListOpt remove)
    label show_tile isProtected force

/-! ### `_update_ldap_group_permission` (lines 493-552) and
`user_permission_reset` (lines 192-224) -/

/-- Python `set(allowed)` at line 535: a set of the characters when `allowed`
is a bare string, a set of the elements when it is a list. -/
def pySetSOL : StrOrList → List String
  | .str s => dedupF (s.data.map (fun c => ⟨[c]⟩))
  | .list l => dedupF l

/-- Python `str(x)` on an optional string (`str(None)` is `"None"`). -/
def pyStrOpt : Option String → String
  | none => "None"
  | some s => s

/-- The attribute values written by `ldap.update` at lines 538-543. -/
structure PermWrite where
  groupPermission : List String
  allowed : List String
  label : List String
  showTile : String
  isProtected : String
deriving DecidableEq

/-- The store write performed by `_update_ldap_group_permission` (lines
519-543): default each omitted argument from the existing record, then
`allowed = set(allowed)` and the `ldap.update` payload.  The post-write diff
and hooks of lines 552-574 are modelled by `computeAccessDiff` below. -/
def _update_ldap_group_permission (ex : PermRecord) (allowed : Option StrOrList)
    (label : Option String) (show_tile isProtected : Option Bool) : PermWrite :=
  let allowedV : StrOrList := match allowed with
    | none => .list ex.allowed
    | some a => a
  let labelV : Option String := match label with
    | none => ex.label
    | some l => some l
  let showTileV : Bool := match show_tile with
    | none => ex.show_tile
    | some b => b
  let protectedV : Bool := match isProtected with
    | none => ex.isProtected
    | some b => b
  let allowedSet := pySetSOL allowedV
  { groupPermission :=
      allowedSet.map (fun g => "cn=" ++ g ++ ",ou=groups,dc=yunohost,dc=org"),
    allowed := allowedSet,
    label := if labelV == some "" then [] else [pyStrOpt labelV],
    showTile := if showTileV then "TRUE" else "FALSE",
    isProtected := if protectedV then "TRUE" else "FALSE" }

/-- `user_permission_reset(permission)` (lines 192-224): `.ok none` models
the advisory-only early return of lines 211-213, `.ok (some w)` the store
write performed through `_update_ldap_group_permission(permission,
allowed="all_users")` of line 220 — note the bare string argument. -/
def user_permission_reset (cat : List (String × PermRecord)) (permission0 : String) :
    Except PyErr (Option PermWrite) :=
  let permission := if containsChar '.' permission0.data then permission0
                    else permission0 ++ ".main"
  match dictGet permission cat with
  | none => .error (.permission_not_found permission)
  | some ex =>
    if ex.allowed == ["all_users"] then .ok none
    else .ok (some (_update_ldap_group_permission ex (some (.str "all_users")) none none none))

/-! ### Access-Change Notifier (lines 554-574) -/

/-- Python set difference `a - b` on lists already treated as sets. -/
def setDiffL (a b : List String) : List String :=
  a.filter (fun x => !(pyInList x b))

/-- The four effect sets of lines 565-569 and the two emission conditions of
lines 571-574. -/
structure AccessDiff where
  effectively_added_users : List String
  effectively_removed_users : List String
  effectively_added_group : List String
  effectively_removed_group : List String
  addaccess_fired : Bool
  removeaccess_fired : Bool
deriving DecidableEq

/-- Lines 559-574 of `_update_ldap_group_permission`: build the four Python
sets from the pre- and post-operation records (`corresponding_users` and
`allowed` of each) and decide which hooks fire. -/
def computeAccessDiff (oldUsers newUsers oldAllowed newAllowed : List String) :
    AccessDiff :=
  let old_corresponding_users := dedupF oldUsers
  let new_corresponding_users := dedupF newUsers
  let old_allowed_users := dedupF oldAllowed
  let new_allowed_users := dedupF newAllowed
  let effectively_added_users := setDiffL new_corresponding_users old_corresponding_users
  let effectively_removed_users := setDiffL old_corresponding_users new_corresponding_users
  let effectively_added_group :=
    setDiffL (setDiffL new_allowed_users old_allowed_users) effectively_added_users
  let effectively_removed_group :=
    setDiffL (setDiffL old_allowed_users new_allowed_users) effectively_removed_users
  { effectively_added_users := effectively_added_users,
    effectively_removed_users := effectively_removed_users,
    effectively_added_group := effectively_added_group,
    effectively_removed_group := effectively_removed_group,
    addaccess_fired := !effectively_added_users.isEmpty || !effectively_added_group.isEmpty,
    removeaccess_fired := !effectively_removed_users.isEmpty || !effectively_removed_group.isEmpty }

/-! ### Synchronizer: `permission_sync_to_user` (lines 447-490) -/

/-- One synchronization pass over the catalog (lines 461-482).  `members`
models `user_group_list(full=True)["groups"][g]["members"]`; `updateOk`
tells whether the `ldap.update` for a given permission succeeds.  The result
pairs the list of store writes actually performed (permission name together
with the deduplicated `should_be_allowed_users` payload, in iteration order)
with `none` on success or `some e` when the `YunohostError` of line 482 is
raised — in which case iteration stops and no later entry is visited. -/
def permission_sync_to_user (members : String → List String) (updateOk : String → Bool) :
    List (String × PermRecord) → List (String × List String) × Option PyErr
  | [] => ([], none)
  | (name, info) :: rest =>
    let currently_allowed_users := info.corresponding_users
    let should_be_allowed_users := unionMembers members info.allowed
    if setEqb currently_allowed_users should_be_allowed_users then
      permission_sync_to_user members updateOk rest
    else if updateOk name then
      let r := permission_sync_to_user members updateOk rest
      ((name, dedupF should_be_allowed_users) :: r.1, r.2)
    else
      ([], some (.permission_update_failed name))

/-! ### `permission_url` (lines 325-404) -/

/-- The commit of lines 394-396 (plus the number of warnings emitted along
the way, to record that already-present / already-absent entries only warn). -/
structure UrlCommit where
  url : Option String
  additionalUrls : List String
  authHeader : Bool
  warnings : Nat
deriving DecidableEq

/-- The add-url pass of lines 364-369: for each entry of `add_url`, warn if
it is already in `current_additional_urls`, otherwise append
`_check_and_normalize_permission_path(url)` — the source passes the main
`url` variable here, not the loop entry `ur`.  Returns the appended values
(in order) and the warning count. -/
def addUrlLoop (appendVal : String) (current : List String) :
    List String → List String × Nat
  | [] => ([], 0)
  | ur :: rest =>
    let r := addUrlLoop appendVal current rest
    if pyInList ur current then (r.1, r.2 + 1) else (appendVal :: r.1, r.2)

/-- `permission_url(permission, url, add_url, remove_url, auth_header,
clear_urls)` (lines 344-404), with the external
`_check_and_normalize_permission_path` collaborator passed in as `norm`
(applied to whatever Python value the code passes it, hence
`Option String → String`). -/
def permission_url (norm : Option String → String) (cat : List (String × PermRecord))
    (permission0 : String) (url0 : Option String)
    (add_url remove_url : Option (List String)) (auth_header : Option Bool)
    (clear_urls : Bool) : Except PyErr UrlCommit :=
  let permission := if containsChar '.' permission0.data then permission0
                    else permission0 ++ ".main"
  match dictGet permission cat with
  | none => .error (.permission_not_found permission)
  | some ex =>
    let url : Option String := match url0 with
      | none => ex.url
      | some u => some (norm (some u))
    let current_additional_urls := ex.additional_urls
    let addRes : List String × Nat := match add_url with
      | none => ([], 0)
      | some l => if l.isEmpty then ([], 0)
                  else addUrlLoop (norm url) current_additional_urls l
    let new1 := current_additional_urls ++ addRes.1
    let remRes : List String × Nat := match remove_url with
      | none => (new1, 0)
      | some l => if l.isEmpty then (new1, 0)
                  else ((new1.filter (fun u => !(pyInList u l))),
                        (l.filter (fun u => !(pyInList u current_additional_urls))).length)
    let authHeaderV : Bool := match auth_header with
      | none => ex.auth_header
      | some b => b
    let urlF : Option String := if clear_urls then none else url
    let additionalF : List String := if clear_urls then [] else remRes.1
    .ok { url := urlF, additionalUrls := dedupF additionalF,
          authHeader := authHeaderV, warnings := addRes.2 + remRes.2 }

/-! ### `permission_create` (lines 235-322): GID allocation and the
allowed-argument handling -/

/-- A Python value as stored in the `all_gid` set: `grp.getgrall()` yields
integer group ids, while the sampled `gid` is converted to a string. -/
inductive PyVal where
  | int (n : Nat)
  | str (s : String)
deriving DecidableEq

/-- Python `x in s` over the modelled set. -/
def pyValIn (x : PyVal) (l : List PyVal) : Bool :=
  l.any (fun y => x == y)

/-- The allocation loop of lines 281-284: draw samples until
`str(randint(...)) not in all_gid` holds.  The unbounded random stream is
modelled by an explicit list of samples; `none` means the supplied samples
were exhausted (unreachable in the code, whose stream is infinite). -/
def gidAlloc (all_gid : List PyVal) : List Nat → Option String
  | [] => none
  | g :: rest =>
    let gid := toString g
    if pyValIn (.str gid) all_gid then gidAlloc all_gid rest else some gid

/-- What `permission_create` has decided by line 316: the resolved name, the
`gidNumber` attribute written at line 289, and the normalized `allowed`
argument forwarded to `_update_ldap_group_permission` at line 314. -/
structure CreateResult where
  permission : String
  gidNumber : String
  allowed : Option (List String)
deriving DecidableEq

/-- Core of `permission_create` (lines 269-316) on the already-normalized
`allowed` list: name resolution, the uniqueness check of lines 274-276, GID
allocation, and the group-existence validation of lines 300-304. -/
def create_core (existing_perms : List String) (all_groups : List String)
    (all_gid : List PyVal) (samples : List Nat)
    (permission0 : String) (allowedL : Option (List String)) :
    Except PyErr CreateResult :=
  let permission := if containsChar '.' permission0.data then permission0
                    else permission0 ++ ".main"
  if pyInList permission existing_perms then
    .error (.permission_already_exist permission)
  else
    match gidAlloc all_gid samples with
    | none => .error .samplesExhausted
    | some gid =>
      match (allowedL.getD []).find? (fun g => !(pyInList g all_groups)) with
      | some g => .error (.group_unknown g)
      | none => .ok { permission := permission, gidNumber := gid, allowed := allowedL }

/-- `allowed = [allowed] if not isinstance(allowed, list)` (lines 296-298). -/
def createAllowedNorm : Option StrOrList → Option (List String)
  | none => none
  | some (.str s) => some [s]
  | some (.list l) => some l

/-- `permission_create(permission, allowed, ...)` restricted to the fields
the claims are about. -/
def permission_create (existing_perms : List String) (all_groups : List String)
    (all_gid : List PyVal) (samples : List Nat)
    (permission : String) (allowed : Option StrOrList) :
    Except PyErr CreateResult :=
  create_core existing_perms all_groups all_gid samples permission (createAllowedNorm allowed)

/-! ### Concrete states used by the theorems below -/

/-- A permission currently allowed to the `dev` group only. -/
def recDev : PermRecord :=
  { allowed := ["dev"], corresponding_users := ["alice"], label := some "App",
    show_tile := true, isProtected := false, auth_header := true,
    url := none, additional_urls := [] }

/-- Catalog holding one ordinary permission `app.main`. -/
def catDev : List (String × PermRecord) := [("app.main", recDev)]

/-- The catalog after the first `user_permission_reset` run on `catDev`:
`allowed` holds the write that run produced. -/
def catDevAfterReset : List (String × PermRecord) :=
  [("app.main", { recDev with allowed := ["a", "l", "_", "u", "s", "e", "r"] })]

/-- A protected permission allowed to `all_users`. -/
def recProtected : PermRecord :=
  { allowed := ["all_users"], corresponding_users := ["alice"], label := none,
    show_tile := false, isProtected := true, auth_header := false,
    url := none, additional_urls := [] }

/-- Catalog holding `sftp.main` and `mail.main`, both protected. -/
def catSysPerms : List (String × PermRecord) :=
  [("sftp.main", recProtected), ("mail.main", recProtected)]

/-- Group names existing in the group directory for the guard runs. -/
def groupsBase : List String := ["all_users", "visitors"]

/-- An unprotected `mail.main` used for the bare-string coercion runs. -/
def recMailOpen : PermRecord :=
  { allowed := ["all_users"], corresponding_users := [], label := none,
    show_tile := false, isProtected := false, auth_header := false,
    url := none, additional_urls := [] }

/-- Catalog holding only the unprotected `mail.main`. -/
def catMailOpen : List (String × PermRecord) := [("mail.main", recMailOpen)]

/-- Groups for the bare-string coercion runs: note `email_visitors` contains
`visitors` as a proper substring. -/
def groupsCoerce : List String := ["all_users", "email_visitors"]

/-- Group membership table for the synchronization runs. -/
def membersSync : String → List String :=
  fun g => if g == "g1" then ["u1", "u2"] else []

/-- A permission whose stored `corresponding_users` already equals (as a set)
the membership of its allowed groups. -/
def recSynced : PermRecord :=
  { allowed := ["g1"], corresponding_users := ["u2", "u1"], label := none,
    show_tile := false, isProtected := false, auth_header := false,
    url := none, additional_urls := [] }

/-- Catalog of one already-synchronized permission. -/
def catSynced : List (String × PermRecord) := [("p.main", recSynced)]

/-- A permission whose stored `corresponding_users` does NOT match the
membership of its allowed groups (a write is required). -/
def recStale : PermRecord :=
  { allowed := ["g1"], corresponding_users := [], label := none,
    show_tile := false, isProtected := false, auth_header := false,
    url := none, additional_urls := [] }

/-- Catalog of two permissions that both require a synchronization write. -/
def catTwoStale : List (String × PermRecord) :=
  [("p1.main", recStale), ("p2.main", recStale)]

/-- A store in which the write for `p1.main` fails and every other write
succeeds. -/
def okExceptP1 : String → Bool := fun n => !(n == "p1.main")

/-- Path normalizer used in the `permission_url` runs: prepends a visible
marker so normalized values are recognizable. -/
def normMark : Option String → String
  | some s => "N:" ++ s
  | none => "NONE"

/-- A permission with no additional urls yet. -/
def recNoUrls : PermRecord :=
  { allowed := ["all_users"], corresponding_users := [], label := none,
    show_tile := false, isProtected := false, auth_header := false,
    url := none, additional_urls := [] }

/-- Catalog for the first `permission_url` run. -/
def catNoUrls : List (String × PermRecord) := [("app.main", recNoUrls)]

/-- Catalog for the already-present-url run: `x` is already an additional url. -/
def catHasUrl : List (String × PermRecord) :=
  [("app.main", { recNoUrls with additional_urls := ["x"] })]

/-- Decidable equality for `Except`, used to evaluate the concrete runs. -/
instance {ε α : Type} [DecidableEq ε] [DecidableEq α] : DecidableEq (Except ε α) := fun a b =>
  match a, b with
  | .error e1, .error e2 =>
    if h : e1 = e2 then isTrue (by rw [h]) else isFalse (fun hh => h (Except.error.inj hh))
  | .error _, .ok _ => isFalse (fun hh => Except.noConfusion hh)
  | .ok _, .error _ => isFalse (fun hh => Except.noConfusion hh)
  | .ok v1, .ok v2 =>
    if h : v1 = v2 then isTrue (by rw [h]) else isFalse (fun hh => h (Except.ok.inj hh))

/-! ### Helper lemmas -/

theorem pyInList_iff (x : String) (l : List String) : pyInList x l = true ↔ x ∈ l := by
  simp only [pyInList, List.any_eq_true, beq_iff_eq]
  exact ⟨fun ⟨y, hy, hxy⟩ => hxy ▸ hy, fun h => ⟨x, h, rfl⟩⟩

theorem pyInList_eq_false_iff (x : String) (l : List String) :
    pyInList x l = false ↔ x ∉ l := by
  rw [← pyInList_iff, Bool.not_eq_true]

theorem mem_dedupF {x : String} {l : List String} : x ∈ dedupF l ↔ x ∈ l := by
  induction l with
  | nil => simp [dedupF]
  | cons y ys ih =>
    by_cases h : x = y <;> simp [dedupF, List.mem_filter, ih, h]

theorem mem_setDiffL {x : String} {a b : List String} :
    x ∈ setDiffL a b ↔ x ∈ a ∧ x ∉ b := by
  simp [setDiffL, List.mem_filter, Bool.not_eq_true', pyInList_eq_false_iff]

theorem beq_comm_str (a b : String) : (a == b) = (b == a) := by
  by_cases h : a = b
  · rw [h]
  · rw [beq_eq_false_iff_ne.mpr h, beq_eq_false_iff_ne.mpr (Ne.symm h)]

theorem str_beq_int (s : String) (n : Nat) : (PyVal.str s == PyVal.int n) = false := rfl

/-! ### Claim theorems -/

/-- C4: normalizing `/admin` for app `myapp` (domain+path
`example.org/myapp`) yields `example.org/myapp/admin` as claimed, but
normalizing `re:/api/[A-Z]*$` yields `re:example.org/myappapi/[A-Z]*$`
(the slash is lost, because `lstrip` removes the whole leading run of
characters drawn from `r`, `e`, `:`, `/`), not the claimed
`re:example.org/myapp/api/[A-Z]*$`. -/
theorem C4_complete_url_regex_slash_lost :
    _complete_url demoSettings (some "/admin") "myapp.main"
      = some "example.org/myapp/admin" ∧
    _complete_url demoSettings (some "re:/api/[A-Z]*$") "myapp.main"
      = some "re:example.org/myappapi/[A-Z]*$" ∧
    _complete_url demoSettings (some "re:/api/[A-Z]*$") "myapp.main"
      ≠ some "re:example.org/myapp/api/[A-Z]*$" :=
  ⟨by decide, by decide, by decide⟩

/-- C1: on a permission currently allowed to `dev`, `user_permission_reset`
commits a write whose allowed set is the set of the CHARACTERS of the bare
string `all_users` (Python `set("all_users")`), not the one-element set
containing `all_users`; consequently a second reset run on the resulting
state is not the advisory-only no-op (`.ok none`) either. -/
theorem C1_reset_writes_character_set :
    Except.map (Option.map PermWrite.allowed) (user_permission_reset catDev "app")
      = .ok (some ["a", "l", "_", "u", "s", "e", "r"]) ∧
    Except.map (Option.map (fun w => pyInList "all_users" w.allowed))
        (user_permission_reset catDev "app") = .ok (some false) ∧
    Except.map (Option.map PermWrite.allowed) (user_permission_reset catDev "app")
      ≠ .ok (some ["all_users"]) ∧
    user_permission_reset catDevAfterReset "app" ≠ .ok none :=
  ⟨by decide, by decide, by decide, by decide⟩

/-- C2: the source spells the third system permission `stfp`, not `sftp`;
hence `sftp` is not in `SYSTEM_PERMS`, and `updateGroups` adding
`visitors` to `sftp.main` does NOT fail with `AccountRequired`: with
`force=true` it succeeds outright, with `force=false` it fails with
`ProtectedPermission` instead.  For `mail.main` the `AccountRequired` guard
does fire for both values of `force`, as claimed. -/
theorem C2_system_perms_typo :
    pyInList "sftp" SYSTEM_PERMS = false ∧
    pyInList "stfp" SYSTEM_PERMS = true ∧
    user_permission_update catSysPerms groupsBase "sftp.main"
        (some (.list ["visitors"])) none none none none true
      = .ok { permission := "sftp.main", allowed := ["all_users", "visitors"],
              label := none, show_tile := none, isProtected := none } ∧
    user_permission_update catSysPerms groupsBase "sftp.main"
        (some (.list ["visitors"])) none none none none false
      = .error (.permission_protected "sftp.main") ∧
    user_permission_update catSysPerms groupsBase "mail.main"
        (some (.list ["visitors"])) none none none none true
      = .error (.permission_require_account "mail.main") ∧
    user_permission_update catSysPerms groupsBase "mail.main"
        (some (.list ["visitors"])) none none none none false
      = .error (.permission_require_account "mail.main") :=
  ⟨by decide, by decide, by decide, by decide, by decide, by decide⟩

/-- C7: calling `updateGroups` on a permission absent from the catalog does
not always fail with `NotFound`: when `visitors` is among the groups to add
or remove, the protected-permission guard subscripts the `None` catalog
entry first and the call dies with a Python `TypeError` (and for a
system-permission name it fails with `AccountRequired`); only when no
`visitors` guard fires does the call reach the `NotFound` check. -/
theorem C7_notfound_not_always_first :
    user_permission_update [] groupsBase "myapp.main"
        (some (.list ["visitors"])) none none none none false = .error .typeError ∧
    user_permission_update [] groupsBase "myapp.main"
        none (some (.list ["visitors"])) none none none false = .error .typeError ∧
    user_permission_update [] groupsBase "mail.main"
        (some (.list ["visitors"])) none none none none true
      = .error (.permission_require_account "mail.main") ∧
    user_permission_update [] groupsBase "myapp.main"
        none none none none none false
      = .error (.permission_not_found "myapp.main") :=
  ⟨by decide, by decide, by decide, by decide⟩

/-- C3: a permission whose stored `corresponding_users` already equals (as a
set) the union of the members of its allowed groups is skipped — processing
it is the same as processing the rest of the catalog, with no store write —
and when this holds for every permission the whole pass issues zero writes
and raises no error. -/
theorem C3_sync_skips_unchanged :
    (∀ (members : String → List String) (updateOk : String → Bool)
       (name : String) (info : PermRecord) (rest : List (String × PermRecord)),
      setEqb info.corresponding_users (unionMembers members info.allowed) = true →
      permission_sync_to_user members updateOk ((name, info) :: rest)
        = permission_sync_to_user members updateOk rest) ∧
    (∀ (members : String → List String) (updateOk : String → Bool)
       (perms : List (String × PermRecord)),
      perms.all
        (fun p => setEqb p.2.corresponding_users (unionMembers members p.2.allowed)) = true →
      permission_sync_to_user members updateOk perms = ([], none)) := by
  constructor
  · intro members updateOk name info rest h
    simp [permission_sync_to_user, h]
  · intro members updateOk perms
    induction perms with
    | nil => intro _; rfl
    | cons p rest ih =>
      intro h
      rw [List.all_cons, Bool.and_eq_true] at h
      obtain ⟨name, info⟩ := p
      simp [permission_sync_to_user, h.1, ih h.2]

/-- C3 witness: on a catalog whose single permission is already
synchronized (members of `g1` are `u1`, `u2`; stored users are `u2`, `u1`),
the pass issues zero writes. -/
theorem C3_sync_skips_unchanged_witness :
    catSynced.all
      (fun p => setEqb p.2.corresponding_users (unionMembers membersSync p.2.allowed)) = true ∧
    permission_sync_to_user membersSync (fun _ => true) catSynced = ([], none) :=
  ⟨by decide, C3_sync_skips_unchanged.2 membersSync (fun _ => true) catSynced (by decide)⟩

/-- C8 amended: when the store write for a permission fails, the pass raises
`permission_update_failed` for it and stops — the remaining entries are
never visited (the result does not depend on `rest`); writes already
performed for earlier entries stand. -/
theorem C8_sync_aborts_on_failure :
    (∀ (members : String → List String) (updateOk : String → Bool)
       (name : String) (info : PermRecord) (rest : List (String × PermRecord)),
      setEqb info.corresponding_users (unionMembers members info.allowed) = false →
      updateOk name = false →
      permission_sync_to_user members updateOk ((name, info) :: rest)
        = ([], some (.permission_update_failed name))) ∧
    (∀ (members : String → List String) (updateOk : String → Bool)
       (n1 : String) (i1 : PermRecord) (n2 : String) (i2 : PermRecord)
       (rest : List (String × PermRecord)),
      setEqb i1.corresponding_users (unionMembers members i1.allowed) = false →
      updateOk n1 = true →
      setEqb i2.corresponding_users (unionMembers members i2.allowed) = false →
      updateOk n2 = false →
      permission_sync_to_user members updateOk ((n1, i1) :: (n2, i2) :: rest)
        = ([(n1, dedupF (unionMembers members i1.allowed))],
           some (.permission_update_failed n2))) := by
  constructor
  · intro members updateOk name info rest h1 h2
    simp [permission_sync_to_user, h1, h2]
  · intro members updateOk n1 i1 n2 i2 rest h1 h2 h3 h4
    simp [permission_sync_to_user, h1, h2, h3, h4]

/-- C8 witness: on the stale one-permission catalog whose write fails, the
pass aborts with the error for that permission. -/
theorem C8_sync_aborts_on_failure_witness :
    (setEqb recStale.corresponding_users (unionMembers membersSync recStale.allowed) = false ∧
     okExceptP1 "p1.main" = false) ∧
    permission_sync_to_user membersSync okExceptP1 [("p1.main", recStale)]
      = ([], some (.permission_update_failed "p1.main")) :=
  ⟨⟨by decide, by decide⟩,
   C8_sync_aborts_on_failure.1 membersSync okExceptP1 "p1.main" recStale [] (by decide) (by decide)⟩

/-- C8 counterexample: with two permissions that both need a write and a
store failing on the first, the run ends in the per-permission error and
issues zero writes — in particular `p2.main`, which needed reconciling, is
never reconciled, refuting "processing of the remaining permissions
continues". -/
theorem C8_counterexample_no_continuation :
    permission_sync_to_user membersSync okExceptP1 catTwoStale
      = ([], some (.permission_update_failed "p1.main")) ∧
    setEqb recStale.corresponding_users (unionMembers membersSync recStale.allowed) = false :=
  ⟨by decide, by decide⟩

theorem orNotIsEmpty (a b : List String) :
    (!a.isEmpty || !b.isEmpty) = true ↔ a ≠ [] ∨ b ≠ [] := by
  cases a <;> cases b <;> simp

/-- C6: the four effect sets computed from the pre- and post-operation
records are exactly the claimed set differences, the access-granted hook
fires exactly when an added set is non-empty (access-revoked likewise), and
on pre-users `u1`,`u2` vs post-users `u2`,`u3` the diff is added `u3`,
removed `u1`. -/
theorem C6_notifier_diff_correct :
    (∀ (oU nU oA nA : List String) (x : String),
      (x ∈ (computeAccessDiff oU nU oA nA).effectively_added_users ↔ x ∈ nU ∧ x ∉ oU) ∧
      (x ∈ (computeAccessDiff oU nU oA nA).effectively_removed_users ↔ x ∈ oU ∧ x ∉ nU) ∧
      (x ∈ (computeAccessDiff oU nU oA nA).effectively_added_group ↔
        (x ∈ nA ∧ x ∉ oA) ∧ ¬(x ∈ nU ∧ x ∉ oU)) ∧
      (x ∈ (computeAccessDiff oU nU oA nA).effectively_removed_group ↔
        (x ∈ oA ∧ x ∉ nA) ∧ ¬(x ∈ oU ∧ x ∉ nU))) ∧
    (∀ (oU nU oA nA : List String),
      ((computeAccessDiff oU nU oA nA).addaccess_fired = true ↔
        (computeAccessDiff oU nU oA nA).effectively_added_users ≠ [] ∨
        (computeAccessDiff oU nU oA nA).effectively_added_group ≠ []) ∧
      ((computeAccessDiff oU nU oA nA).removeaccess_fired = true ↔
        (computeAccessDiff oU nU oA nA).effectively_removed_users ≠ [] ∨
        (computeAccessDiff oU nU oA nA).effectively_removed_group ≠ [])) ∧
    ((computeAccessDiff ["u1", "u2"] ["u2", "u3"] ["grpA"] ["grpB"]).effectively_added_users
        = ["u3"] ∧
     (computeAccessDiff ["u1", "u2"] ["u2", "u3"] ["grpA"] ["grpB"]).effectively_removed_users
        = ["u1"] ∧
     (computeAccessDiff ["u1", "u2"] ["u2", "u3"] ["grpA"] ["grpB"]).addaccess_fired = true ∧
     (computeAccessDiff ["u1", "u2"] ["u2", "u3"] ["grpA"] ["grpB"]).removeaccess_fired = true) := by
  refine ⟨?_, ?_, by decide, by decide, by decide, by decide⟩
  · intro oU nU oA nA x
    simp only [computeAccessDiff, mem_setDiffL, mem_dedupF]
    refine ⟨trivial, trivial, ?_, ?_⟩ <;> tauto
  · intro oU nU oA nA
    constructor <;> exact orNotIsEmpty _ _

/-- C5: calling `setUrls` with `url="/x"` and `addUrl=["u1"]` on a
permission with no additional urls appends the (doubly) normalized MAIN url
`N:N:/x`, not the normalized entry `N:u1` — the loop body of line 369
passes `url` instead of the loop variable `ur` to the normalizer.  An
already-present `addUrl` entry produces a warning and the call still
succeeds, as claimed. -/
theorem C5_add_url_appends_main_url :
    permission_url normMark catNoUrls "app" (some "/x") (some ["u1"]) none none false
      = .ok { url := some "N:/x", additionalUrls := ["N:N:/x"],
              authHeader := false, warnings := 0 } ∧
    Except.map (fun w => pyInList (normMark (some "u1")) w.additionalUrls)
        (permission_url normMark catNoUrls "app" (some "/x") (some ["u1"]) none none false)
      = .ok false ∧
    permission_url normMark catHasUrl "app" none (some ["x"]) none none false
      = .ok { url := none, additionalUrls := ["x"], authHeader := false, warnings := 1 } :=
  ⟨by decide, by decide, by decide⟩

/-- C9: the allocation loop compares the string form of the sampled id
against a set of integer ids, so the test `gid not in all_gid` always
passes: the very first sample is returned whatever the existing ids are,
and with existing gid 500 and sample 500 the permission entry is created
with `gidNumber = "500"` although a system group with id 500 exists. -/
theorem C9_gid_allocation_never_resamples :
    (∀ (gids : List Nat) (g : Nat) (rest : List Nat),
      gidAlloc (gids.map PyVal.int) (g :: rest) = some (toString g)) ∧
    gidAlloc [PyVal.int 500] [500] = some "500" ∧
    pyValIn (.int 500) [PyVal.int 500] = true ∧
    permission_create [] ["all_users"] [PyVal.int 500] [500] "app"
        (some (.list ["all_users"]))
      = .ok { permission := "app.main", gidNumber := "500", allowed := some ["all_users"] } := by
  refine ⟨?_, by decide, by decide, by decide⟩
  intro gids g rest
  have hmem : pyValIn (.str (toString g)) (gids.map PyVal.int) = false := by
    induction gids with
    | nil => rfl
    | cons a as ih =>
      simp only [List.map_cons, pyValIn, List.any_cons, str_beq_int, Bool.false_or] at *
      exact ih
  simp [gidAlloc, hmem]

/-- C10 counterexample: on the unprotected `mail.main`, adding the existing
group `email_visitors` as a bare string fails with `AccountRequired`
(the guard tests `"visitors" in add` as a SUBSTRING of the bare string),
while adding it as the one-element list succeeds — the two forms do not
produce the same result. -/
theorem C10_counterexample_substring_guard :
    user_permission_update catMailOpen groupsCoerce "mail.main"
        (some (.str "email_visitors")) none none none none false
      = .error (.permission_require_account "mail.main") ∧
    user_permission_update catMailOpen groupsCoerce "mail.main"
        (some (.list ["email_visitors"])) none none none none false
      = .ok { permission := "mail.main", allowed := ["all_users", "email_visitors"],
              label := none, show_tile := none, isProtected := none } ∧
    user_permission_update catMailOpen groupsCoerce "mail.main"
        (some (.str "email_visitors")) none none none none false
      ≠ user_permission_update catMailOpen groupsCoerce "mail.main"
          (some (.list ["email_visitors"])) none none none none false :=
  ⟨by decide, by decide, by decide⟩

/-- C10 amended: `permission_create` treats a bare `allowed` string exactly
as its one-element list; `user_permission_update` treats a bare `add` or
`remove` string as its one-element list PROVIDED the string is non-empty
and contains `visitors` as a substring only if it equals `visitors` (the
visitors guards test substring containment on bare strings). -/
theorem C10_bare_string_equals_singleton :
    (∀ (cat : List (String × PermRecord)) (gs : List String) (p s : String)
       (rem : Option StrOrList) (label : Option String) (st pr : Option Bool) (force : Bool),
      s ≠ "" → pyInStr "visitors" s = (s == "visitors") →
      user_permission_update cat gs p (some (.str s)) rem label st pr force
        = user_permission_update cat gs p (some (.list [s])) rem label st pr force) ∧
    (∀ (cat : List (String × PermRecord)) (gs : List String) (p s : String)
       (add : Option StrOrList) (label : Option String) (st pr : Option Bool) (force : Bool),
      s ≠ "" → pyInStr "visitors" s = (s == "visitors") →
      user_permission_update cat gs p add (some (.str s)) label st pr force
        = user_permission_update cat gs p add (some (.list [s])) label st pr force) ∧
    (∀ (ep ag : List String) (agid : List PyVal) (samples : List Nat) (p s : String),
      permission_create ep ag agid samples p (some (.str s))
        = permission_create ep ag agid samples p (some (.list [s]))) := by
  refine ⟨?_, ?_, ?_⟩
  · intro cat gs p s rem label st pr force hs hvis
    have hb : (s == "") = false := beq_eq_false_iff_ne.mpr hs
    unfold user_permission_update
    simp only [pyTruthyOpt, visitorsInOpt, toListOpt, hb, hvis, Bool.not_false,
      List.isEmpty_cons, pyInList, List.any_cons, List.any_nil, Bool.or_false,
      beq_comm_str s "visitors"]
  · intro cat gs p s add label st pr force hs hvis
    have hb : (s == "") = false := beq_eq_false_iff_ne.mpr hs
    unfold user_permission_update
    simp only [pyTruthyOpt, visitorsInOpt, toListOpt, hb, hvis, Bool.not_false,
      List.isEmpty_cons, pyInList, List.any_cons, List.any_nil, Bool.or_false,
      beq_comm_str s "visitors"]
  · intro ep ag agid samples p s
    rfl

/-- C10 witness: for the group name `dev` the bare-string and list forms of
`add` give the same result on a concrete state. -/
theorem C10_bare_string_equals_singleton_witness :
    (("dev" : String) ≠ "" ∧ pyInStr "visitors" "dev" = ("dev" == "visitors")) ∧
    user_permission_update catMailOpen groupsCoerce "mail.main"
        (some (.str "dev")) none none none none false
      = user_permission_update catMailOpen groupsCoerce "mail.main"
          (some (.list ["dev"])) none none none none false :=
  ⟨⟨by decide, by decide⟩,
   C10_bare_string_equals_singleton.1 catMailOpen groupsCoerce "mail.main" "dev"
     none none none none false (by decide) (by decide)⟩
